import Mathlib

/-!
Verification of the fan-out/fan-in CI pipeline orchestrator of
`pipeline/run.go` (`PipelineWorkflow`, `hasErrors`, `isEmptyOrNil`).

The workflow is embedded as a pure function from the resolved outcome of
every activity handle (what the durable substrate delivers when the
workflow calls `future.Get`) to the list of activity invocations it issues,
in program order, together with its result (`*PipelineResult` or an error).
Handle resolution failure (an infrastructure error after retries are
exhausted) is modelled as `Except.error msg`, where `msg` is the string
`err.Error()` would produce.
-/

namespace Pipeline

/-- A Go `any` (interface) value, as far as `isEmptyOrNil`'s reflection can
distinguish it: the reflect kinds the workflow payloads can carry.  A slice
carries its elements and Go's `IsNil` flag (`v.Len() == 0 || v.IsNil()`
inspects both).  `goFloat64` stands for a float64 value; its numeric content
is never inspected by the orchestration logic, only its reflect kind. -/
inductive GoValue where
  | goNil : GoValue
  | goString : String → GoValue
  | goSlice : List GoValue → Bool → GoValue
  | goInt : Int → GoValue
  | goBool : Bool → GoValue
  | goFloat64 : GoValue
  | goMap : List (GoValue × GoValue) → GoValue
  | goStruct : List (String × GoValue) → GoValue

/-- `isEmptyOrNil` from run.go lines 565-579: nil is empty; a string is
empty iff zero length; a slice is empty iff zero length or nil; every other
reflect kind falls to the `default` case and is non-empty. -/
def isEmptyOrNil : GoValue → Bool
  | .goNil => true
  | .goString s => s.length == 0
  | .goSlice elems isNil => elems.length == 0 || isNil
  | .goInt _ => false
  | .goBool _ => false
  | .goFloat64 => false
  | .goMap _ => false
  | .goStruct _ => false

/-- A reflect kind outside nil / string / slice (number, bool, float, map,
struct): the `default` case of `isEmptyOrNil`. -/
def goValueOtherKind : GoValue → Bool
  | .goNil => false
  | .goString _ => false
  | .goSlice _ _ => false
  | .goInt _ => true
  | .goBool _ => true
  | .goFloat64 => true
  | .goMap _ => true
  | .goStruct _ => true

/-- `PipelineActivityMetadata` (run.go line 21): the shared workdir. -/
structure PipelineActivityMetadata where
  workdir : String
  deriving DecidableEq

/-- `PipelineParams` (run.go lines 410-415). -/
structure PipelineParams where
  gitURL : String
  testFlags : List String
  buildFlags : List String
  generateFlags : List String

/-- One record of `go test -json` output (run.go lines 56-61).  The
`Elapsed float64` field is never read by the orchestration logic and is not
modelled (its encoding into a generic value is `goFloat64`). -/
structure GoTestCLIOutput where
  action : String
  pkg : String
  test : String

structure GitCloneParams where
  metadata : PipelineActivityMetadata
  remote : String

structure GitCloneResult where
  metadata : PipelineActivityMetadata

structure GoTestParams where
  metadata : PipelineActivityMetadata
  flags : List String

structure GoTestResult where
  metadata : PipelineActivityMetadata
  failedTests : List GoTestCLIOutput

structure GoFmtParams where
  metadata : PipelineActivityMetadata

structure GoFmtResult where
  metadata : PipelineActivityMetadata
  failedFiles : List String

structure GoModTidyParams where
  metadata : PipelineActivityMetadata

structure GoModTidyResult where
  metadata : PipelineActivityMetadata
  failedFiles : List String

structure GoBuildParams where
  metadata : PipelineActivityMetadata
  flags : List String

structure GoBuildResult where
  metadata : PipelineActivityMetadata
  failedFiles : List String

structure GoGenerateParams where
  metadata : PipelineActivityMetadata
  flags : List String

structure GoGenerateResult where
  metadata : PipelineActivityMetadata
  failedFiles : List String

structure GolangCILintParams where
  metadata : PipelineActivityMetadata

structure GolangCILintResult where
  issues : List String

structure GoDeployParams where
  metadata : PipelineActivityMetadata

/-- `GoDeployResult` (run.go lines 40-43).  The `Error error` interface
field is `none` for nil, or `some v` where `v` is the dynamic value the
interface holds. -/
structure GoDeployResult where
  success : Bool
  error : Option GoValue

structure DeleteWorkdirParams where
  metadata : PipelineActivityMetadata

/-- `PipelineFailure` (run.go lines 428-431): a step name and an opaque
`any` details payload. -/
structure PipelineFailure where
  activity : String
  details : GoValue

/-- `PipelineResult` (run.go lines 424-426). -/
structure PipelineResult where
  failures : List PipelineFailure

/-- The resolved outcome of every activity handle the workflow may wait on:
what each `future.Get` call yields.  `Except.error msg` is a handle that
resolved with an infrastructure error whose `err.Error()` is `msg`. -/
structure WorkflowEnv where
  clone : Except String GitCloneResult
  goTest : Except String GoTestResult
  goFmt : Except String GoFmtResult
  goModTidy : Except String GoModTidyResult
  goBuild : Except String GoBuildResult
  goGenerate : Except String GoGenerateResult
  golangCILint : Except String GolangCILintResult
  deploy : Except String GoDeployResult
  cleanup : Except String Unit

/-- Encoding of a `GoTestCLIOutput` struct as a generic Go value (as it
sits behind the `any` of `PipelineFailure.Details`). -/
def encodeGoTestOutput (t : GoTestCLIOutput) : GoValue :=
  .goStruct [("Action", .goString t.action), ("Package", .goString t.pkg),
             ("Test", .goString t.test), ("Elapsed", .goFloat64)]

/-- Encoding of a non-nil `[]string` slice as a generic Go value. -/
def encodeStringSlice (fs : List String) : GoValue :=
  .goSlice (fs.map .goString) false

/-- The `"GoTest"` case of the classification loop (run.go lines 486-491
and 523-525): on success append a failure iff the failed-test list is
non-empty; on handle error append a failure with `err.Error()` as details. -/
def classifyGoTest : Except String GoTestResult → List PipelineFailure
  | .ok r =>
      if r.failedTests.length > 0 then
        [⟨"GoTest", .goSlice (r.failedTests.map encodeGoTestOutput) false⟩]
      else []
  | .error e => [⟨"GoTest", .goString e⟩]

/-- The `"GoFmt"` case of the classification loop (run.go lines 492-497). -/
def classifyGoFmt : Except String GoFmtResult → List PipelineFailure
  | .ok r =>
      if r.failedFiles.length > 0 then
        [⟨"GoFmt", encodeStringSlice r.failedFiles⟩]
      else []
  | .error e => [⟨"GoFmt", .goString e⟩]

/-- The `"GoModTidy"` case of the classification loop (run.go lines 498-503). -/
def classifyGoModTidy : Except String GoModTidyResult → List PipelineFailure
  | .ok r =>
      if r.failedFiles.length > 0 then
        [⟨"GoModTidy", encodeStringSlice r.failedFiles⟩]
      else []
  | .error e => [⟨"GoModTidy", .goString e⟩]

/-- The `"GoBuild"` case of the classification loop (run.go lines 504-509). -/
def classifyGoBuild : Except String GoBuildResult → List PipelineFailure
  | .ok r =>
      if r.failedFiles.length > 0 then
        [⟨"GoBuild", encodeStringSlice r.failedFiles⟩]
      else []
  | .error e => [⟨"GoBuild", .goString e⟩]

/-- The `"GoGenerate"` case of the classification loop (run.go lines 510-515). -/
def classifyGoGenerate : Except String GoGenerateResult → List PipelineFailure
  | .ok r =>
      if r.failedFiles.length > 0 then
        [⟨"GoGenerate", encodeStringSlice r.failedFiles⟩]
      else []
  | .error e => [⟨"GoGenerate", .goString e⟩]

/-- The `"GolangCILint"` case of the classification loop (run.go lines 516-521). -/
def classifyGolangCILint : Except String GolangCILintResult → List PipelineFailure
  | .ok r =>
      if r.issues.length > 0 then
        [⟨"GolangCILint", encodeStringSlice r.issues⟩]
      else []
  | .error e => [⟨"GolangCILint", .goString e⟩]

/-- The whole classification loop (run.go lines 483-526): iterate the
`activities` slice in its fixed literal order, appending each step's
failures. -/
def processResults (env : WorkflowEnv) : List PipelineFailure :=
  classifyGoTest env.goTest ++ classifyGoFmt env.goFmt ++
  classifyGoModTidy env.goModTidy ++ classifyGoBuild env.goBuild ++
  classifyGoGenerate env.goGenerate ++ classifyGolangCILint env.golangCILint

/-- `hasErrors` (run.go lines 556-563): true iff some recorded failure has a
non-empty details payload. -/
def hasErrors (result : PipelineResult) : Bool :=
  result.failures.any fun failure => !(isEmptyOrNil failure.details)

/-- One `workflow.ExecuteActivity` call, with the parameter value passed. -/
inductive Invocation where
  | gitClone : GitCloneParams → Invocation
  | goTest : GoTestParams → Invocation
  | goFmt : GoFmtParams → Invocation
  | goModTidy : GoModTidyParams → Invocation
  | goBuild : GoBuildParams → Invocation
  | goGenerate : GoGenerateParams → Invocation
  | golangCILint : GolangCILintParams → Invocation
  | goDeploy : GoDeployParams → Invocation
  | deleteWorkdir : DeleteWorkdirParams → Invocation

/-- A completed (or aborted) run: the `ExecuteActivity` calls issued, in
program order, and the workflow's return value. -/
structure WorkflowRun where
  trace : List Invocation
  outcome : Except String PipelineResult

/-- The selector callback registered for every fan-out future
(run.go lines 472-474): its body is empty. -/
def selectorCallback (_ : Fin 6) : Unit := ()

/-- The fan-in wait loop (run.go lines 469-480): `selector.Select` fires
the no-op callback once per completion, in whatever order the handles
resolve.  `completionOrder` is that resolution order. -/
def selectorWait : List (Fin 6) → Unit
  | [] => ()
  | i :: rest =>
      let _ := selectorCallback i
      selectorWait rest

/-- The six fan-out `ExecuteActivity` calls, in the fixed literal order of
the `activities` slice (run.go lines 456-466), each passed the shared
metadata by value. -/
def fanOutInvocations (params : PipelineParams)
    (metadata : PipelineActivityMetadata) : List Invocation :=
  [ .goTest ⟨metadata, params.testFlags⟩
  , .goFmt ⟨metadata⟩
  , .goModTidy ⟨metadata⟩
  , .goBuild ⟨metadata, params.buildFlags⟩
  , .goGenerate ⟨metadata, params.generateFlags⟩
  , .golangCILint ⟨metadata⟩ ]

/-- The workflow body after Clone resolved successfully (run.go lines
453-554): fan-out issue, classification, gating via `hasErrors`,
conditional Deploy (fatal on handle error, business failure appended to
the report), then Cleanup (fatal on handle error; skipped when Deploy's
handle errored, because of the early return at line 533). -/
def afterClone (params : PipelineParams) (env : WorkflowEnv)
    (metadata : PipelineActivityMetadata) : WorkflowRun :=
  let cloneInv := Invocation.gitClone ⟨⟨""⟩, params.gitURL⟩
  let invs := fanOutInvocations params metadata
  let result : PipelineResult := ⟨processResults env⟩
  if !(hasErrors result) then
    match env.deploy with
    | .error e =>
        ⟨cloneInv :: invs ++ [.goDeploy ⟨metadata⟩],
         .error ("deploy activity: " ++ e)⟩
    | .ok rDeploy =>
        let result2 : PipelineResult :=
          match rDeploy.error with
          | some v => ⟨result.failures ++ [⟨"Deploy", v⟩]⟩
          | none => result
        match env.cleanup with
        | .error e =>
            ⟨cloneInv :: invs ++ [.goDeploy ⟨metadata⟩, .deleteWorkdir ⟨metadata⟩],
             .error ("deleteWorkdir activity: " ++ e)⟩
        | .ok _ =>
            ⟨cloneInv :: invs ++ [.goDeploy ⟨metadata⟩, .deleteWorkdir ⟨metadata⟩],
             .ok result2⟩
  else
    match env.cleanup with
    | .error e =>
        ⟨cloneInv :: invs ++ [.deleteWorkdir ⟨metadata⟩],
         .error ("deleteWorkdir activity: " ++ e)⟩
    | .ok _ =>
        ⟨cloneInv :: invs ++ [.deleteWorkdir ⟨metadata⟩],
         .ok result⟩

/-- `PipelineWorkflow` (run.go lines 435-554).  `completionOrder` is the
wall-clock order in which the six fan-out handles resolve under the
selector; it feeds only the no-op wait loop.  Control flow mirrors the
source: Clone is fatal on handle error (early return at line 450, before
any fan-out call is issued); otherwise the run continues in `afterClone`. -/
def PipelineWorkflow (params : PipelineParams) (env : WorkflowEnv)
    (completionOrder : List (Fin 6)) : WorkflowRun :=
  let cloneInv := Invocation.gitClone ⟨⟨""⟩, params.gitURL⟩
  match env.clone with
  | .error e => ⟨[cloneInv], .error ("GitClone activity: " ++ e)⟩
  | .ok rClone =>
      let _ := selectorWait completionOrder
      afterClone params env rClone.metadata

/-- The value the `GoDeploy` activity returns on success (run.go lines
394-397): `Success: true, Error: nil` — it never reports a business
failure. -/
def goDeploySuccessResult : GoDeployResult := ⟨true, none⟩

/-- What a real run's Deploy handle can resolve to, given the `GoDeploy`
activity body: an infrastructure error, or the constant success value. -/
def deployResolvesFromActivity (env : WorkflowEnv) : Prop :=
  (∃ e, env.deploy = .error e) ∨ env.deploy = .ok goDeploySuccessResult

/-- The fixed issue order of the fan-out steps (run.go lines 460-465):
unit-test, format, dependency-tidy, build, generate, lint. -/
def issueOrder : List String :=
  ["GoTest", "GoFmt", "GoModTidy", "GoBuild", "GoGenerate", "GolangCILint"]

/-- The unit-test step failed: handle error, or non-empty failed-test list. -/
def recordedGoTest : Except String GoTestResult → Bool
  | .ok r => decide (r.failedTests.length > 0)
  | .error _ => true

/-- The format step failed: handle error, or non-empty failed-file list. -/
def recordedGoFmt : Except String GoFmtResult → Bool
  | .ok r => decide (r.failedFiles.length > 0)
  | .error _ => true

/-- The dependency-tidy step failed: handle error, or non-empty failed-file list. -/
def recordedGoModTidy : Except String GoModTidyResult → Bool
  | .ok r => decide (r.failedFiles.length > 0)
  | .error _ => true

/-- The build step failed: handle error, or non-empty failed-file list. -/
def recordedGoBuild : Except String GoBuildResult → Bool
  | .ok r => decide (r.failedFiles.length > 0)
  | .error _ => true

/-- The generate step failed: handle error, or non-empty failed-file list. -/
def recordedGoGenerate : Except String GoGenerateResult → Bool
  | .ok r => decide (r.failedFiles.length > 0)
  | .error _ => true

/-- The lint step failed: handle error, or non-empty issue list. -/
def recordedGolangCILint : Except String GolangCILintResult → Bool
  | .ok r => decide (r.issues.length > 0)
  | .error _ => true

/-- Spec-side characterisation of "the step failed": its handle resolved
with an infrastructure error, or its result carries a non-empty
failure payload.  These are exactly the steps the classification loop
records. -/
def stepRecorded (env : WorkflowEnv) (name : String) : Bool :=
  if name = "GoTest" then recordedGoTest env.goTest
  else if name = "GoFmt" then recordedGoFmt env.goFmt
  else if name = "GoModTidy" then recordedGoModTidy env.goModTidy
  else if name = "GoBuild" then recordedGoBuild env.goBuild
  else if name = "GoGenerate" then recordedGoGenerate env.goGenerate
  else if name = "GolangCILint" then recordedGolangCILint env.golangCILint
  else false

def isCloneInv : Invocation → Bool
  | .gitClone _ => true
  | _ => false

def isDeployInv : Invocation → Bool
  | .goDeploy _ => true
  | _ => false

def isCleanupInv : Invocation → Bool
  | .deleteWorkdir _ => true
  | _ => false

def isFanOutInv : Invocation → Bool
  | .goTest _ => true
  | .goFmt _ => true
  | .goModTidy _ => true
  | .goBuild _ => true
  | .goGenerate _ => true
  | .golangCILint _ => true
  | _ => false

/-- Whether the run issued a Deploy invocation. -/
def deployInvoked (run : WorkflowRun) : Bool :=
  run.trace.any isDeployInv

/-- How many Deploy invocations the run issued. -/
def deployCount (run : WorkflowRun) : Nat :=
  run.trace.countP isDeployInv

/-- How many Cleanup (workdir deletion) invocations the run issued. -/
def cleanupCount (run : WorkflowRun) : Nat :=
  run.trace.countP isCleanupInv

/-- How many fan-out invocations the run issued. -/
def fanOutCount (run : WorkflowRun) : Nat :=
  run.trace.countP isFanOutInv

/-- The metadata value an invocation's parameter carries. -/
def invMetadata : Invocation → PipelineActivityMetadata
  | .gitClone p => p.metadata
  | .goTest p => p.metadata
  | .goFmt p => p.metadata
  | .goModTidy p => p.metadata
  | .goBuild p => p.metadata
  | .goGenerate p => p.metadata
  | .golangCILint p => p.metadata
  | .goDeploy p => p.metadata
  | .deleteWorkdir p => p.metadata

/-- Every fan-out step passes: every handle resolves successfully and
every result carries an empty failure payload. -/
def allFanOutPass (env : WorkflowEnv) : Prop :=
  (∃ m, env.goTest = .ok ⟨m, []⟩) ∧ (∃ m, env.goFmt = .ok ⟨m, []⟩) ∧
  (∃ m, env.goModTidy = .ok ⟨m, []⟩) ∧ (∃ m, env.goBuild = .ok ⟨m, []⟩) ∧
  (∃ m, env.goGenerate = .ok ⟨m, []⟩) ∧ env.golangCILint = .ok ⟨[]⟩

/-- A sample workdir value for concrete runs. -/
def mdSample : PipelineActivityMetadata := ⟨"/tmp/wd"⟩

/-- Sample workflow parameters for concrete runs. -/
def paramsSample : PipelineParams := ⟨"https://example.com/repo.git", [], [], []⟩

/-- A concrete environment where Clone succeeds, every fan-out step passes,
Deploy succeeds and Cleanup succeeds. -/
def envAllPass : WorkflowEnv :=
  { clone := .ok ⟨mdSample⟩
  , goTest := .ok ⟨mdSample, []⟩
  , goFmt := .ok ⟨mdSample, []⟩
  , goModTidy := .ok ⟨mdSample, []⟩
  , goBuild := .ok ⟨mdSample, []⟩
  , goGenerate := .ok ⟨mdSample, []⟩
  , golangCILint := .ok ⟨[]⟩
  , deploy := .ok goDeploySuccessResult
  , cleanup := .ok () }

/-- Like `envAllPass`, but the unit-test step reports one failing test. -/
def envTestFail : WorkflowEnv :=
  { envAllPass with goTest := .ok ⟨mdSample, [⟨"fail", "example/pkg", "TestX"⟩]⟩ }

/-- Like `envAllPass`, but the unit-test handle resolves with an
infrastructure error. -/
def envTestInfraErr : WorkflowEnv :=
  { envAllPass with goTest := .error "test infra down" }

/-- Like `envAllPass`, but the Deploy handle resolves with an
infrastructure error. -/
def envDeployErr : WorkflowEnv :=
  { envAllPass with deploy := .error "deploy timeout" }

/-- Like `envAllPass`, but the Clone handle resolves with an
infrastructure error. -/
def envCloneErr : WorkflowEnv :=
  { envAllPass with clone := .error "clone failed" }

lemma ite_singleton_append {α : Type} {c : Prop} [Decidable c] (a : α) (l : List α) :
    (if c then [a] else []) ++ l = if c then a :: l else l := by
  split <;> simp

lemma classifyGoTest_names (x : Except String GoTestResult) :
    (classifyGoTest x).map (fun f => f.activity) =
      if recordedGoTest x then ["GoTest"] else [] := by
  cases x with
  | ok r =>
      by_cases h : r.failedTests.length > 0 <;>
        simp [classifyGoTest, recordedGoTest, h]
  | error e => simp [classifyGoTest, recordedGoTest]

lemma classifyGoFmt_names (x : Except String GoFmtResult) :
    (classifyGoFmt x).map (fun f => f.activity) =
      if recordedGoFmt x then ["GoFmt"] else [] := by
  cases x with
  | ok r =>
      by_cases h : r.failedFiles.length > 0 <;>
        simp [classifyGoFmt, recordedGoFmt, h]
  | error e => simp [classifyGoFmt, recordedGoFmt]

lemma classifyGoModTidy_names (x : Except String GoModTidyResult) :
    (classifyGoModTidy x).map (fun f => f.activity) =
      if recordedGoModTidy x then ["GoModTidy"] else [] := by
  cases x with
  | ok r =>
      by_cases h : r.failedFiles.length > 0 <;>
        simp [classifyGoModTidy, recordedGoModTidy, h]
  | error e => simp [classifyGoModTidy, recordedGoModTidy]

lemma classifyGoBuild_names (x : Except String GoBuildResult) :
    (classifyGoBuild x).map (fun f => f.activity) =
      if recordedGoBuild x then ["GoBuild"] else [] := by
  cases x with
  | ok r =>
      by_cases h : r.failedFiles.length > 0 <;>
        simp [classifyGoBuild, recordedGoBuild, h]
  | error e => simp [classifyGoBuild, recordedGoBuild]

lemma classifyGoGenerate_names (x : Except String GoGenerateResult) :
    (classifyGoGenerate x).map (fun f => f.activity) =
      if recordedGoGenerate x then ["GoGenerate"] else [] := by
  cases x with
  | ok r =>
      by_cases h : r.failedFiles.length > 0 <;>
        simp [classifyGoGenerate, recordedGoGenerate, h]
  | error e => simp [classifyGoGenerate, recordedGoGenerate]

lemma classifyGolangCILint_names (x : Except String GolangCILintResult) :
    (classifyGolangCILint x).map (fun f => f.activity) =
      if recordedGolangCILint x then ["GolangCILint"] else [] := by
  cases x with
  | ok r =>
      by_cases h : r.issues.length > 0 <;>
        simp [classifyGolangCILint, recordedGolangCILint, h]
  | error e => simp [classifyGolangCILint, recordedGolangCILint]

lemma stepRecorded_goTest (env : WorkflowEnv) :
    stepRecorded env "GoTest" = recordedGoTest env.goTest := rfl

lemma stepRecorded_goFmt (env : WorkflowEnv) :
    stepRecorded env "GoFmt" = recordedGoFmt env.goFmt := rfl

lemma stepRecorded_goModTidy (env : WorkflowEnv) :
    stepRecorded env "GoModTidy" = recordedGoModTidy env.goModTidy := rfl

lemma stepRecorded_goBuild (env : WorkflowEnv) :
    stepRecorded env "GoBuild" = recordedGoBuild env.goBuild := rfl

lemma stepRecorded_goGenerate (env : WorkflowEnv) :
    stepRecorded env "GoGenerate" = recordedGoGenerate env.goGenerate := rfl

lemma stepRecorded_golangCILint (env : WorkflowEnv) :
    stepRecorded env "GolangCILint" = recordedGolangCILint env.golangCILint := rfl

/-- The classification loop records exactly the failed steps, in the fixed
issue order. -/
lemma processResults_names (env : WorkflowEnv) :
    (processResults env).map (fun f => f.activity) =
      issueOrder.filter (stepRecorded env) := by
  simp only [processResults, List.map_append, classifyGoTest_names,
    classifyGoFmt_names, classifyGoModTidy_names, classifyGoBuild_names,
    classifyGoGenerate_names, classifyGolangCILint_names, issueOrder,
    List.filter_cons, List.filter_nil, stepRecorded_goTest, stepRecorded_goFmt,
    stepRecorded_goModTidy, stepRecorded_goBuild, stepRecorded_goGenerate,
    stepRecorded_golangCILint]
  split_ifs <;> simp

lemma workflow_clone_error (params : PipelineParams) (env : WorkflowEnv)
    (order : List (Fin 6)) (e : String) (h : env.clone = .error e) :
    PipelineWorkflow params env order =
      ⟨[.gitClone ⟨⟨""⟩, params.gitURL⟩], .error ("GitClone activity: " ++ e)⟩ := by
  simp [PipelineWorkflow, h]

lemma workflow_clone_ok (params : PipelineParams) (env : WorkflowEnv)
    (order : List (Fin 6)) (rc : GitCloneResult) (h : env.clone = .ok rc) :
    PipelineWorkflow params env order = afterClone params env rc.metadata := by
  simp [PipelineWorkflow, h]

lemma hasErrors_eq_filter (fs : List PipelineFailure) :
    hasErrors ⟨fs⟩ = !((fs.filter fun f => !(isEmptyOrNil f.details)).isEmpty) := by
  induction fs with
  | nil => rfl
  | cons f rest ih =>
      by_cases h : isEmptyOrNil f.details = true
      · simpa [hasErrors, List.any_cons, List.filter_cons, h] using ih
      · simp [hasErrors, List.any_cons, List.filter_cons, h]

lemma afterClone_errors_cleanupOk (params : PipelineParams) (env : WorkflowEnv)
    (m : PipelineActivityMetadata) (u : Unit)
    (hb : hasErrors ⟨processResults env⟩ = true) (hc : env.cleanup = .ok u) :
    afterClone params env m =
      ⟨.gitClone ⟨⟨""⟩, params.gitURL⟩ :: fanOutInvocations params m ++ [.deleteWorkdir ⟨m⟩],
       .ok ⟨processResults env⟩⟩ := by
  simp [afterClone, hb, hc]

lemma afterClone_errors_cleanupErr (params : PipelineParams) (env : WorkflowEnv)
    (m : PipelineActivityMetadata) (e : String)
    (hb : hasErrors ⟨processResults env⟩ = true) (hc : env.cleanup = .error e) :
    afterClone params env m =
      ⟨.gitClone ⟨⟨""⟩, params.gitURL⟩ :: fanOutInvocations params m ++ [.deleteWorkdir ⟨m⟩],
       .error ("deleteWorkdir activity: " ++ e)⟩ := by
  simp [afterClone, hb, hc]

lemma afterClone_ok_deployErr (params : PipelineParams) (env : WorkflowEnv)
    (m : PipelineActivityMetadata) (e : String)
    (hb : hasErrors ⟨processResults env⟩ = false) (hd : env.deploy = .error e) :
    afterClone params env m =
      ⟨.gitClone ⟨⟨""⟩, params.gitURL⟩ :: fanOutInvocations params m ++ [.goDeploy ⟨m⟩],
       .error ("deploy activity: " ++ e)⟩ := by
  simp [afterClone, hb, hd]

lemma afterClone_ok_deployOk_cleanupOk (params : PipelineParams) (env : WorkflowEnv)
    (m : PipelineActivityMetadata) (r : GoDeployResult) (u : Unit)
    (hb : hasErrors ⟨processResults env⟩ = false) (hd : env.deploy = .ok r)
    (hc : env.cleanup = .ok u) :
    afterClone params env m =
      ⟨.gitClone ⟨⟨""⟩, params.gitURL⟩ ::
         fanOutInvocations params m ++ [.goDeploy ⟨m⟩, .deleteWorkdir ⟨m⟩],
       .ok (match r.error with
            | some v => ⟨processResults env ++ [⟨"Deploy", v⟩]⟩
            | none => ⟨processResults env⟩)⟩ := by
  cases hr : r.error <;> simp [afterClone, hb, hd, hc, hr]

lemma afterClone_ok_deployOk_cleanupErr (params : PipelineParams) (env : WorkflowEnv)
    (m : PipelineActivityMetadata) (r : GoDeployResult) (e : String)
    (hb : hasErrors ⟨processResults env⟩ = false) (hd : env.deploy = .ok r)
    (hc : env.cleanup = .error e) :
    afterClone params env m =
      ⟨.gitClone ⟨⟨""⟩, params.gitURL⟩ ::
         fanOutInvocations params m ++ [.goDeploy ⟨m⟩, .deleteWorkdir ⟨m⟩],
       .error ("deleteWorkdir activity: " ++ e)⟩ := by
  cases hr : r.error <;> simp [afterClone, hb, hd, hc, hr]

/-- With every fan-out step passing, the classification loop records
nothing. -/
lemma processResults_allPass (env : WorkflowEnv) (h : allFanOutPass env) :
    processResults env = [] := by
  obtain ⟨⟨m1, h1⟩, ⟨m2, h2⟩, ⟨m3, h3⟩, ⟨m4, h4⟩, ⟨m5, h5⟩, h6⟩ := h
  simp [processResults, classifyGoTest, classifyGoFmt, classifyGoModTidy,
    classifyGoBuild, classifyGoGenerate, classifyGolangCILint,
    h1, h2, h3, h4, h5, h6]

/-- When Clone succeeds, Deploy is invoked exactly when `hasErrors` is false
on the recorded failures — the gating decision. -/
lemma deployInvoked_iff_no_errors (params : PipelineParams) (env : WorkflowEnv)
    (order : List (Fin 6)) (rc : GitCloneResult) (h : env.clone = .ok rc) :
    deployInvoked (PipelineWorkflow params env order) =
      !(hasErrors ⟨processResults env⟩) := by
  rw [workflow_clone_ok params env order rc h]
  cases hb : hasErrors ⟨processResults env⟩ with
  | true =>
      cases hc : env.cleanup with
      | ok u =>
          rw [afterClone_errors_cleanupOk params env rc.metadata u hb hc]
          simp [deployInvoked, fanOutInvocations, isDeployInv]
      | error e =>
          rw [afterClone_errors_cleanupErr params env rc.metadata e hb hc]
          simp [deployInvoked, fanOutInvocations, isDeployInv]
  | false =>
      cases hd : env.deploy with
      | ok r =>
          cases hc : env.cleanup with
          | ok u =>
              rw [afterClone_ok_deployOk_cleanupOk params env rc.metadata r u hb hd hc]
              simp [deployInvoked, fanOutInvocations, isDeployInv]
          | error e =>
              rw [afterClone_ok_deployOk_cleanupErr params env rc.metadata r e hb hd hc]
              simp [deployInvoked, fanOutInvocations, isDeployInv]
      | error e =>
          rw [afterClone_ok_deployErr params env rc.metadata e hb hd]
          simp [deployInvoked, fanOutInvocations, isDeployInv]

/-- C1: for every assignment of outcomes to the six fan-out steps, the run's
result does not depend on the order in which the handles resolve, and the
report's entry sequence produced by the classification loop is the
subsequence of the fixed issue order (GoTest, GoFmt, GoModTidy, GoBuild,
GoGenerate, GolangCILint) restricted to the steps that failed. -/
theorem report_entries_fixed_issue_order (params : PipelineParams)
    (env : WorkflowEnv) (o1 o2 : List (Fin 6)) :
    PipelineWorkflow params env o1 = PipelineWorkflow params env o2 ∧
    (processResults env).map (fun f => f.activity) =
      issueOrder.filter (stepRecorded env) :=
  ⟨rfl, processResults_names env⟩

/-- C2: for every run that reaches the gating decision (Clone succeeded),
Deploy is invoked iff the recorded failure list, filtered to failures with
a non-empty details payload, is empty. -/
theorem deploy_iff_filtered_failures_empty (params : PipelineParams)
    (env : WorkflowEnv) (order : List (Fin 6)) (rc : GitCloneResult)
    (h : env.clone = .ok rc) :
    deployInvoked (PipelineWorkflow params env order) =
      ((processResults env).filter fun f => !(isEmptyOrNil f.details)).isEmpty := by
  rw [deployInvoked_iff_no_errors params env order rc h,
    hasErrors_eq_filter (processResults env), Bool.not_not]

/-- Witness for C2: the all-pass run deploys and its filtered failure list
is empty. -/
theorem deploy_iff_filtered_failures_empty_witness :
    deployInvoked (PipelineWorkflow paramsSample envAllPass []) =
      ((processResults envAllPass).filter fun f => !(isEmptyOrNil f.details)).isEmpty :=
  deploy_iff_filtered_failures_empty paramsSample envAllPass [] ⟨mdSample⟩ rfl

/-- Counterexample to C3 as stated: in `envAllPass` the format step's
outcome is a successful result whose details payload is the empty
collection, yet no failure entry for it (or for any step) appears in the
emitted report — the classification loop's `len > 0` guard records
nothing. -/
theorem empty_details_result_not_reported_cex :
    envAllPass.goFmt = .ok ⟨mdSample, []⟩ ∧
    ¬ ("GoFmt" ∈ (processResults envAllPass).map fun f => f.activity) := by
  refine ⟨rfl, ?_⟩
  rw [show ((processResults envAllPass).map fun f => f.activity) = [] from rfl]
  exact List.not_mem_nil _

/-- C3 amended: a fan-out step whose result carries an empty details
payload produces no report entry at all (it is classified as passed), so it
cannot block deployment; and a report whose entries all have empty details
never blocks deployment (the gating filter ignores empty-details entries). -/
theorem empty_details_failures_never_block (env : WorkflowEnv) :
    (∀ m, env.goTest = .ok ⟨m, []⟩ →
      ¬ ("GoTest" ∈ (processResults env).map fun f => f.activity)) ∧
    (∀ m, env.goFmt = .ok ⟨m, []⟩ →
      ¬ ("GoFmt" ∈ (processResults env).map fun f => f.activity)) ∧
    (∀ m, env.goModTidy = .ok ⟨m, []⟩ →
      ¬ ("GoModTidy" ∈ (processResults env).map fun f => f.activity)) ∧
    (∀ m, env.goBuild = .ok ⟨m, []⟩ →
      ¬ ("GoBuild" ∈ (processResults env).map fun f => f.activity)) ∧
    (∀ m, env.goGenerate = .ok ⟨m, []⟩ →
      ¬ ("GoGenerate" ∈ (processResults env).map fun f => f.activity)) ∧
    (env.golangCILint = .ok ⟨[]⟩ →
      ¬ ("GolangCILint" ∈ (processResults env).map fun f => f.activity)) ∧
    (∀ fs : List PipelineFailure,
      (∀ f ∈ fs, isEmptyOrNil f.details = true) → hasErrors ⟨fs⟩ = false) := by
  refine ⟨?_, ?_, ?_, ?_, ?_, ?_, ?_⟩
  · intro m h hmem
    rw [processResults_names] at hmem
    have := List.of_mem_filter hmem
    rw [stepRecorded_goTest, h] at this
    simp [recordedGoTest] at this
  · intro m h hmem
    rw [processResults_names] at hmem
    have := List.of_mem_filter hmem
    rw [stepRecorded_goFmt, h] at this
    simp [recordedGoFmt] at this
  · intro m h hmem
    rw [processResults_names] at hmem
    have := List.of_mem_filter hmem
    rw [stepRecorded_goModTidy, h] at this
    simp [recordedGoModTidy] at this
  · intro m h hmem
    rw [processResults_names] at hmem
    have := List.of_mem_filter hmem
    rw [stepRecorded_goBuild, h] at this
    simp [recordedGoBuild] at this
  · intro m h hmem
    rw [processResults_names] at hmem
    have := List.of_mem_filter hmem
    rw [stepRecorded_goGenerate, h] at this
    simp [recordedGoGenerate] at this
  · intro h hmem
    rw [processResults_names] at hmem
    have := List.of_mem_filter hmem
    rw [stepRecorded_golangCILint, h] at this
    simp [recordedGolangCILint] at this
  · intro fs hall
    simp only [hasErrors, List.any_eq_false]
    intro f hf
    simp [hall f hf]

/-- Witness for the amended C3: in the all-pass run the format step's empty
result yields no report entry, and a report holding only an empty-string
entry does not block deployment. -/
theorem empty_details_failures_never_block_witness :
    ¬ ("GoFmt" ∈ (processResults envAllPass).map fun f => f.activity) ∧
    hasErrors ⟨[⟨"GoFmt", .goString ""⟩]⟩ = false := by
  have h := empty_details_failures_never_block envAllPass
  refine ⟨h.2.1 mdSample rfl, ?_⟩
  exact h.2.2.2.2.2.2 [⟨"GoFmt", .goString ""⟩] (by intro f hf; simp at hf; simp [hf, isEmptyOrNil])

/-- C4: when Clone succeeds, all six fan-out steps pass and the Deploy
handle resolves as the `GoDeploy` activity can (infrastructure error or the
constant success value, which never carries a business failure), Deploy is
invoked exactly once and any returned report is empty. -/
theorem all_pass_deploys_once_report_empty (params : PipelineParams)
    (env : WorkflowEnv) (order : List (Fin 6)) (rc : GitCloneResult)
    (h : env.clone = .ok rc) (hp : allFanOutPass env)
    (hdr : deployResolvesFromActivity env) :
    deployCount (PipelineWorkflow params env order) = 1 ∧
    ∀ r, (PipelineWorkflow params env order).outcome = .ok r → r.failures = [] := by
  rw [workflow_clone_ok params env order rc h]
  have hpr : processResults env = [] := processResults_allPass env hp
  have hb : hasErrors ⟨processResults env⟩ = false := by rw [hpr]; rfl
  rcases hdr with ⟨e, hd⟩ | hd
  · rw [afterClone_ok_deployErr params env rc.metadata e hb hd]
    constructor
    · simp [deployCount, fanOutInvocations, isDeployInv]
    · intro r hr
      simp at hr
  · cases hc : env.cleanup with
    | error e =>
        rw [afterClone_ok_deployOk_cleanupErr params env rc.metadata
          goDeploySuccessResult e hb hd hc]
        constructor
        · simp [deployCount, fanOutInvocations, isDeployInv]
        · intro r hr
          simp at hr
    | ok u =>
        rw [afterClone_ok_deployOk_cleanupOk params env rc.metadata
          goDeploySuccessResult u hb hd hc]
        constructor
        · simp [deployCount, fanOutInvocations, isDeployInv]
        · intro r hr
          simp [goDeploySuccessResult] at hr
          rw [← hr, hpr]

/-- Witness for C4: the all-pass run deploys once and returns an empty
report. -/
theorem all_pass_deploys_once_report_empty_witness :
    deployCount (PipelineWorkflow paramsSample envAllPass []) = 1 ∧
    ∀ r, (PipelineWorkflow paramsSample envAllPass []).outcome = .ok r →
      r.failures = [] :=
  all_pass_deploys_once_report_empty paramsSample envAllPass [] ⟨mdSample⟩ rfl
    ⟨⟨mdSample, rfl⟩, ⟨mdSample, rfl⟩, ⟨mdSample, rfl⟩, ⟨mdSample, rfl⟩,
     ⟨mdSample, rfl⟩, rfl⟩ (Or.inr rfl)

/-- C5: when at least one recorded fan-out failure has a non-empty details
payload, Deploy is never invoked. -/
theorem nonempty_failure_blocks_deploy (params : PipelineParams)
    (env : WorkflowEnv) (order : List (Fin 6)) (rc : GitCloneResult)
    (h : env.clone = .ok rc)
    (hf : ∃ f ∈ processResults env, isEmptyOrNil f.details = false) :
    deployInvoked (PipelineWorkflow params env order) = false := by
  rw [deployInvoked_iff_no_errors params env order rc h]
  rcases hf with ⟨f, hmem, hne⟩
  have hb : hasErrors ⟨processResults env⟩ = true := by
    simp only [hasErrors, List.any_eq_true]
    exact ⟨f, hmem, by simp [hne]⟩
  rw [hb]
  rfl

/-- Witness for C5: a run with one failing unit test never deploys. -/
theorem nonempty_failure_blocks_deploy_witness :
    deployInvoked (PipelineWorkflow paramsSample envTestFail []) = false := by
  apply nonempty_failure_blocks_deploy paramsSample envTestFail [] ⟨mdSample⟩ rfl
  refine ⟨⟨"GoTest",
    .goSlice [encodeGoTestOutput ⟨"fail", "example/pkg", "TestX"⟩] false⟩, ?_, rfl⟩
  rw [show processResults envTestFail =
    [⟨"GoTest", .goSlice [encodeGoTestOutput ⟨"fail", "example/pkg", "TestX"⟩] false⟩]
    from rfl]
  exact List.mem_singleton_self _

/-- Counterexample to C6 as stated: in `envDeployErr` Clone succeeds and
the gating decision invokes Deploy, but Deploy's handle resolves with an
infrastructure error and the run returns before issuing Cleanup — so
Cleanup is not invoked "regardless of how Deploy resolved". -/
theorem deploy_infra_error_skips_cleanup_cex :
    envDeployErr.clone = .ok ⟨mdSample⟩ ∧
    deployInvoked (PipelineWorkflow paramsSample envDeployErr []) = true ∧
    cleanupCount (PipelineWorkflow paramsSample envDeployErr []) = 0 :=
  ⟨rfl, rfl, rfl⟩

/-- C6 amended: whenever Clone succeeds, Cleanup is invoked — exactly once,
as the run's final invocation, after the deploy decision — regardless of
the report's contents and of whether Deploy ran, provided Deploy's handle
(when Deploy runs) does not resolve with an infrastructure error; a Deploy
infrastructure error aborts the run before Cleanup. -/
theorem cleanup_follows_deploy_decision (params : PipelineParams)
    (env : WorkflowEnv) (order : List (Fin 6)) (rc : GitCloneResult)
    (h : env.clone = .ok rc)
    (hnd : hasErrors ⟨processResults env⟩ = true ∨ ∃ r, env.deploy = .ok r) :
    (∃ pre, (PipelineWorkflow params env order).trace =
      pre ++ [.deleteWorkdir ⟨rc.metadata⟩]) ∧
    cleanupCount (PipelineWorkflow params env order) = 1 := by
  rw [workflow_clone_ok params env order rc h]
  cases hb : hasErrors ⟨processResults env⟩ with
  | true =>
      cases hc : env.cleanup with
      | ok u =>
          rw [afterClone_errors_cleanupOk params env rc.metadata u hb hc]
          refine ⟨⟨.gitClone ⟨⟨""⟩, params.gitURL⟩ :: fanOutInvocations params rc.metadata, by simp⟩, ?_⟩
          simp [cleanupCount, fanOutInvocations, isCleanupInv]
      | error e =>
          rw [afterClone_errors_cleanupErr params env rc.metadata e hb hc]
          refine ⟨⟨.gitClone ⟨⟨""⟩, params.gitURL⟩ :: fanOutInvocations params rc.metadata, by simp⟩, ?_⟩
          simp [cleanupCount, fanOutInvocations, isCleanupInv]
  | false =>
      rcases hnd with hb' | ⟨r, hd⟩
      · rw [hb] at hb'
        exact absurd hb' (by simp)
      · cases hc : env.cleanup with
        | ok u =>
            rw [afterClone_ok_deployOk_cleanupOk params env rc.metadata r u hb hd hc]
            refine ⟨⟨.gitClone ⟨⟨""⟩, params.gitURL⟩ ::
              (fanOutInvocations params rc.metadata ++ [.goDeploy ⟨rc.metadata⟩]), by simp⟩, ?_⟩
            simp [cleanupCount, fanOutInvocations, isCleanupInv]
        | error e =>
            rw [afterClone_ok_deployOk_cleanupErr params env rc.metadata r e hb hd hc]
            refine ⟨⟨.gitClone ⟨⟨""⟩, params.gitURL⟩ ::
              (fanOutInvocations params rc.metadata ++ [.goDeploy ⟨rc.metadata⟩]), by simp⟩, ?_⟩
            simp [cleanupCount, fanOutInvocations, isCleanupInv]

/-- Witness for the amended C6: the all-pass run ends with exactly one
Cleanup invocation. -/
theorem cleanup_follows_deploy_decision_witness :
    (∃ pre, (PipelineWorkflow paramsSample envAllPass []).trace =
      pre ++ [.deleteWorkdir ⟨mdSample⟩]) ∧
    cleanupCount (PipelineWorkflow paramsSample envAllPass []) = 1 :=
  cleanup_follows_deploy_decision paramsSample envAllPass [] ⟨mdSample⟩ rfl
    (Or.inr ⟨goDeploySuccessResult, rfl⟩)

/-- C7: a Clone handle infrastructure error terminates the run fatally
(error outcome, no report), with zero fan-out invocations and no Cleanup
invocation. -/
theorem clone_infra_error_fatal (params : PipelineParams) (env : WorkflowEnv)
    (order : List (Fin 6)) (e : String) (h : env.clone = .error e) :
    (PipelineWorkflow params env order).outcome = .error ("GitClone activity: " ++ e) ∧
    fanOutCount (PipelineWorkflow params env order) = 0 ∧
    cleanupCount (PipelineWorkflow params env order) = 0 := by
  rw [workflow_clone_error params env order e h]
  exact ⟨rfl, rfl, rfl⟩

/-- Witness for C7: a concrete run whose Clone handle errors issues nothing
beyond Clone and returns the fatal error. -/
theorem clone_infra_error_fatal_witness :
    (PipelineWorkflow paramsSample envCloneErr []).outcome =
      .error ("GitClone activity: " ++ "clone failed") ∧
    fanOutCount (PipelineWorkflow paramsSample envCloneErr []) = 0 ∧
    cleanupCount (PipelineWorkflow paramsSample envCloneErr []) = 0 :=
  clone_infra_error_fatal paramsSample envCloneErr [] "clone failed" rfl

/-- When Clone succeeds, every invocation in the trace is either the Clone
call itself or carries the metadata Clone returned. -/
lemma trace_cases (params : PipelineParams) (env : WorkflowEnv)
    (order : List (Fin 6)) (rc : GitCloneResult) (h : env.clone = .ok rc) :
    ∀ inv ∈ (PipelineWorkflow params env order).trace,
      inv = .gitClone ⟨⟨""⟩, params.gitURL⟩ ∨ invMetadata inv = rc.metadata := by
  rw [workflow_clone_ok params env order rc h]
  cases hb : hasErrors ⟨processResults env⟩ with
  | true =>
      cases hc : env.cleanup with
      | ok u =>
          rw [afterClone_errors_cleanupOk params env rc.metadata u hb hc]
          intro inv hmem
          simp [fanOutInvocations, List.mem_cons, List.mem_append] at hmem
          rcases hmem with rfl | rfl | rfl | rfl | rfl | rfl | rfl | rfl <;>
            simp [invMetadata]
      | error e =>
          rw [afterClone_errors_cleanupErr params env rc.metadata e hb hc]
          intro inv hmem
          simp [fanOutInvocations, List.mem_cons, List.mem_append] at hmem
          rcases hmem with rfl | rfl | rfl | rfl | rfl | rfl | rfl | rfl <;>
            simp [invMetadata]
  | false =>
      cases hd : env.deploy with
      | error e =>
          rw [afterClone_ok_deployErr params env rc.metadata e hb hd]
          intro inv hmem
          simp [fanOutInvocations, List.mem_cons, List.mem_append] at hmem
          rcases hmem with rfl | rfl | rfl | rfl | rfl | rfl | rfl | rfl <;>
            simp [invMetadata]
      | ok r =>
          cases hc : env.cleanup with
          | ok u =>
              rw [afterClone_ok_deployOk_cleanupOk params env rc.metadata r u hb hd hc]
              intro inv hmem
              simp [fanOutInvocations, List.mem_cons, List.mem_append] at hmem
              rcases hmem with rfl | rfl | rfl | rfl | rfl | rfl | rfl | rfl | rfl <;>
                simp [invMetadata]
          | error e =>
              rw [afterClone_ok_deployOk_cleanupErr params env rc.metadata r e hb hd hc]
              intro inv hmem
              simp [fanOutInvocations, List.mem_cons, List.mem_append] at hmem
              rcases hmem with rfl | rfl | rfl | rfl | rfl | rfl | rfl | rfl | rfl <;>
                simp [invMetadata]

/-- When Clone succeeds, the run issues exactly six fan-out invocations. -/
lemma fanOutCount_six (params : PipelineParams) (env : WorkflowEnv)
    (order : List (Fin 6)) (rc : GitCloneResult) (h : env.clone = .ok rc) :
    fanOutCount (PipelineWorkflow params env order) = 6 := by
  rw [workflow_clone_ok params env order rc h]
  cases hb : hasErrors ⟨processResults env⟩ with
  | true =>
      cases hc : env.cleanup with
      | ok u =>
          rw [afterClone_errors_cleanupOk params env rc.metadata u hb hc]
          simp [fanOutCount, fanOutInvocations, isFanOutInv,
            List.countP_cons, List.countP_append]
      | error e =>
          rw [afterClone_errors_cleanupErr params env rc.metadata e hb hc]
          simp [fanOutCount, fanOutInvocations, isFanOutInv,
            List.countP_cons, List.countP_append]
  | false =>
      cases hd : env.deploy with
      | error e =>
          rw [afterClone_ok_deployErr params env rc.metadata e hb hd]
          simp [fanOutCount, fanOutInvocations, isFanOutInv,
            List.countP_cons, List.countP_append]
      | ok r =>
          cases hc : env.cleanup with
          | ok u =>
              rw [afterClone_ok_deployOk_cleanupOk params env rc.metadata r u hb hd hc]
              simp [fanOutCount, fanOutInvocations, isFanOutInv,
                List.countP_cons, List.countP_append]
          | error e =>
              rw [afterClone_ok_deployOk_cleanupErr params env rc.metadata r e hb hd hc]
              simp [fanOutCount, fanOutInvocations, isFanOutInv,
                List.countP_cons, List.countP_append]

/-- C8: a fan-out step whose handle resolves with an infrastructure error
does not abort the run: a failure entry with that error's message as
details is recorded for the step, every sibling is still classified
according to its own outcome, and the run proceeds to the gating
decision (Deploy is invoked exactly when no recorded failure is
non-empty). -/
theorem fanout_infra_error_nonfatal (params : PipelineParams)
    (env : WorkflowEnv) (order : List (Fin 6)) (rc : GitCloneResult)
    (h : env.clone = .ok rc) :
    (∀ e, env.goTest = .error e →
      (⟨"GoTest", .goString e⟩ : PipelineFailure) ∈ processResults env) ∧
    (∀ e, env.goFmt = .error e →
      (⟨"GoFmt", .goString e⟩ : PipelineFailure) ∈ processResults env) ∧
    (∀ e, env.goModTidy = .error e →
      (⟨"GoModTidy", .goString e⟩ : PipelineFailure) ∈ processResults env) ∧
    (∀ e, env.goBuild = .error e →
      (⟨"GoBuild", .goString e⟩ : PipelineFailure) ∈ processResults env) ∧
    (∀ e, env.goGenerate = .error e →
      (⟨"GoGenerate", .goString e⟩ : PipelineFailure) ∈ processResults env) ∧
    (∀ e, env.golangCILint = .error e →
      (⟨"GolangCILint", .goString e⟩ : PipelineFailure) ∈ processResults env) ∧
    deployInvoked (PipelineWorkflow params env order) =
      !(hasErrors ⟨processResults env⟩) ∧
    (∀ n ∈ issueOrder,
      (n ∈ (processResults env).map fun f => f.activity) ↔
        stepRecorded env n = true) := by
  refine ⟨?_, ?_, ?_, ?_, ?_, ?_,
    deployInvoked_iff_no_errors params env order rc h, ?_⟩
  · intro e he
    simp [processResults, classifyGoTest, he, List.mem_append]
  · intro e he
    simp [processResults, classifyGoFmt, he, List.mem_append]
  · intro e he
    simp [processResults, classifyGoModTidy, he, List.mem_append]
  · intro e he
    simp [processResults, classifyGoBuild, he, List.mem_append]
  · intro e he
    simp [processResults, classifyGoGenerate, he, List.mem_append]
  · intro e he
    simp [processResults, classifyGolangCILint, he, List.mem_append]
  · intro n hn
    rw [processResults_names]
    simp [List.mem_filter, hn]

/-- Witness for C8: with the unit-test handle erroring, its failure entry
is recorded and the gating decision is still taken. -/
theorem fanout_infra_error_nonfatal_witness :
    (⟨"GoTest", .goString "test infra down"⟩ : PipelineFailure) ∈
      processResults envTestInfraErr ∧
    deployInvoked (PipelineWorkflow paramsSample envTestInfraErr []) =
      !(hasErrors ⟨processResults envTestInfraErr⟩) := by
  have h := fanout_infra_error_nonfatal paramsSample envTestInfraErr [] ⟨mdSample⟩ rfl
  exact ⟨h.1 "test infra down" rfl, h.2.2.2.2.2.2.1⟩

/-- C9: when Clone succeeds, the metadata it returned is passed unchanged
to every subsequent invocation — all six fan-out steps (which are all
issued), Deploy when invoked, and Cleanup. -/
theorem shared_metadata_invariant (params : PipelineParams)
    (env : WorkflowEnv) (order : List (Fin 6)) (rc : GitCloneResult)
    (h : env.clone = .ok rc) :
    (∀ inv ∈ (PipelineWorkflow params env order).trace,
      isCloneInv inv = false → invMetadata inv = rc.metadata) ∧
    fanOutCount (PipelineWorkflow params env order) = 6 := by
  refine ⟨?_, fanOutCount_six params env order rc h⟩
  intro inv hmem hnc
  rcases trace_cases params env order rc h inv hmem with rfl | hm
  · simp [isCloneInv] at hnc
  · exact hm

/-- Witness for C9: in the all-pass run the Deploy invocation carries the
cloned workdir and all six fan-out invocations were issued. -/
theorem shared_metadata_invariant_witness :
    invMetadata (.goDeploy ⟨mdSample⟩) = mdSample ∧
    fanOutCount (PipelineWorkflow paramsSample envAllPass []) = 6 := by
  have h := shared_metadata_invariant paramsSample envAllPass [] ⟨mdSample⟩ rfl
  refine ⟨h.1 (.goDeploy ⟨mdSample⟩) ?_ rfl, h.2⟩
  rw [show (PipelineWorkflow paramsSample envAllPass []).trace =
    .gitClone ⟨⟨""⟩, paramsSample.gitURL⟩ ::
      fanOutInvocations paramsSample mdSample ++
        [.goDeploy ⟨mdSample⟩, .deleteWorkdir ⟨mdSample⟩] from rfl]
  simp [fanOutInvocations]

/-- C10: the gating emptiness test treats exactly nil, zero-length strings
and nil-or-zero-length slices as empty; every other reflect kind (number,
bool, float, map, struct) is non-empty, so a recorded failure carrying such
a payload — even a logically empty one like an empty map — always blocks
deployment. -/
theorem isEmptyOrNil_kinds :
    isEmptyOrNil .goNil = true ∧
    (∀ s, isEmptyOrNil (.goString s) = (s.length == 0)) ∧
    (∀ elems isNil, isEmptyOrNil (.goSlice elems isNil) =
      (elems.length == 0 || isNil)) ∧
    (∀ v, goValueOtherKind v = true → isEmptyOrNil v = false) ∧
    (∀ (fs : List PipelineFailure) (f : PipelineFailure), f ∈ fs →
      goValueOtherKind f.details = true → hasErrors ⟨fs⟩ = true) := by
  refine ⟨rfl, fun s => rfl, fun elems isNil => rfl, ?_, ?_⟩
  · intro v hv
    cases v <;> simp_all [goValueOtherKind, isEmptyOrNil]
  · intro fs f hmem hk
    simp only [hasErrors, List.any_eq_true]
    refine ⟨f, hmem, ?_⟩
    cases hd : f.details <;> simp_all [goValueOtherKind, isEmptyOrNil]

/-- Witness for C10: an empty map is non-empty for the gating filter and a
failure carrying it blocks deployment. -/
theorem isEmptyOrNil_kinds_witness :
    isEmptyOrNil (.goMap []) = false ∧
    hasErrors ⟨[⟨"X", .goMap []⟩]⟩ = true := by
  have h := isEmptyOrNil_kinds
  exact ⟨h.2.2.2.1 (.goMap []) rfl,
    h.2.2.2.2 [⟨"X", .goMap []⟩] ⟨"X", .goMap []⟩ (List.mem_singleton_self _) rfl⟩

end Pipeline
